import Mathlib

/-!
Verification of the MSR206 magnetic-stripe reader/writer utility.

Shallow embedding of the protocol codec and the Luhn-based card-number
generator found in the repository sources `msre206_cc.py`,
`msre206_debug.py` and `msre206_v0.2.py`.

Conventions of the embedding:
* Byte strings (`bytes`) are modelled as `List Nat`, each element a byte
  value `< 256`.
* Python text (`str`) is modelled as `List Nat` of Unicode code points;
  `codes` turns a Lean string literal into that representation and
  `pyEncode` is UTF-8 encoding (`str.encode()`), `utf8Decode?` is strict
  UTF-8 decoding (`bytes.decode()`), returning `none` on a decode error
  exactly where CPython raises `UnicodeDecodeError`.
* The serial transport is modelled as a function from poll index to the
  chunk delivered at that poll; wall-clock time is abstracted into a
  poll budget (one poll per time unit of the idle window).
* The Tkinter `StringVar` triple holding the three track fields is
  modelled as explicit state `TrackState` threaded through `read_card`.
-/

namespace MSRE206

/-! ## Luhn library (`from luhn import append, verify`)

The `luhn` PyPI package used by `msre206_cc.py`:
`checksum` sums the digits at even offset from the right unchanged and
the digits at odd offset doubled with their decimal digits re-summed;
`verify` accepts iff the checksum is 0; `generate` computes the check
digit of a payload by first shifting it one position (`string + '0'`);
`append` appends that digit. -/

namespace Luhn

/-- Sum of the decimal digits of `n` for `n ≤ 18`: `sum(divmod(n, 10))`. -/
def dsum (n : Nat) : Nat := n / 10 + n % 10

/-- The Luhn addends of a digit list given rightmost-first: positions at
even offset from the right stay, odd offsets are doubled via `dsum`. -/
def addendsRev : List Nat → List Nat
  | [] => []
  | [d] => [d]
  | d :: e :: rest => d :: dsum (2 * e) :: addendsRev rest

/-- `luhn.checksum`: the weighted digit sum of a digit string, mod 10. -/
def checksum (ds : List Nat) : Nat := (addendsRev ds.reverse).sum % 10

/-- `luhn.verify`: a digit string is Luhn-valid iff its checksum is 0. -/
def verify (ds : List Nat) : Bool := checksum ds == 0

/-- `luhn.generate`: the check digit for payload `ds`, computed on the
payload shifted by a trailing `0` placeholder. -/
def generate (ds : List Nat) : Nat := (10 - checksum (ds ++ [0])) % 10

/-- `luhn.append`: payload plus its computed check digit. -/
def append (ds : List Nat) : List Nat := ds ++ [generate ds]

end Luhn

/-! ## Card number generators -/

/-- The card brands supported by both generators. -/
inductive Brand
  | visa
  | mastercard
  | american_express
  | discover
deriving DecidableEq

/-- Brand digit-prefix table of `generate_credit_card` in
`msre206_debug.py` (dict `prefixes`), each entry as a digit list. -/
def debugIIN : Brand → List (List Nat)
  | .visa => [[4]]
  | .mastercard => [[5, 1], [5, 2], [5, 3], [5, 4], [5, 5]]
  | .american_express => [[3, 4], [3, 7]]
  | .discover => [[6, 0, 1, 1], [6, 5]]

/-- Total length rule of `msre206_debug.py`:
`length = 16 if card_type != "american_express" else 15`. -/
def debugLength : Brand → Nat
  | .american_express => 15
  | _ => 16

/-- Brand digit-prefix table of `generate_credit_card` in
`msre206_cc.py` (dict `prefixes`). -/
def ccIIN : Brand → List (List Nat)
  | .visa => [[4]]
  | .mastercard => [[5, 1], [5, 2], [5, 3], [5, 4], [5, 5]]
  | .american_express => [[3, 4], [3, 7]]
  | .discover =>
      [[6, 0, 1, 1], [6, 2, 2, 1, 2, 6], [6, 2, 2, 1, 2, 7], [6, 2, 2, 1, 2, 8],
       [6, 2, 2, 1, 2, 9], [6, 2, 2, 1, 3], [6, 2, 2, 1, 4], [6, 2, 2, 1, 5],
       [6, 2, 2, 1, 6], [6, 2, 2, 1, 7], [6, 2, 2, 1, 8], [6, 2, 2, 1, 9],
       [6, 2, 2, 2], [6, 2, 2, 3], [6, 2, 2, 4], [6, 2, 2, 5], [6, 2, 2, 6],
       [6, 2, 2, 7], [6, 2, 2, 8], [6, 2, 2, 9, 0], [6, 2, 2, 9, 1],
       [6, 2, 2, 9, 2, 0], [6, 2, 2, 9, 2, 1], [6, 2, 2, 9, 2, 2],
       [6, 2, 2, 9, 2, 3], [6, 2, 2, 9, 2, 4], [6, 2, 2, 9, 2, 5]]

/-- Length table (dict `lengths`) of `generate_credit_card` in
`msre206_cc.py`. -/
def ccLength : Brand → Nat
  | .american_express => 15
  | _ => 16

/-- The inline check-digit computation of `generate_credit_card` in
`msre206_debug.py`: the checksum is taken over `reversed(card_number)`
with even reversed indices kept and odd reversed indices doubled via
`sum(divmod(d * 2, 10))` — the same addend pattern as `Luhn.addendsRev`,
but computed on the payload without the placeholder shift that
`Luhn.generate` performs. -/
def debugChecksum (ds : List Nat) : Nat := (Luhn.addendsRev ds.reverse).sum % 10

/-- `card_number += str((10 - checksum) % 10)` in `msre206_debug.py`. -/
def debugAppendCheckDigit (ds : List Nat) : List Nat :=
  ds ++ [(10 - debugChecksum ds) % 10]

/-- The `while True` retry loop of `generate_credit_card` in
`msre206_debug.py`, with the random digit draws of attempt number `i`
supplied by `rand i` and the (unbounded) loop given explicit fuel:
build payload, append the inline check digit, return it if
`luhn.verify` accepts, otherwise retry with fresh digits. -/
def generate_credit_card (iin : List Nat) (rand : Nat → List Nat) :
    Nat → Option (List Nat)
  | 0 => none
  | fuel + 1 =>
    let card_number := debugAppendCheckDigit (iin ++ rand fuel)
    if Luhn.verify card_number then some card_number
    else generate_credit_card iin rand fuel

/-- The generator body of `generate_credit_card` in `msre206_cc.py`:
`card_number = append(partial_number)` followed by the
`if verify(card_number): ... else: print("Failed ...")` gate; the
success branch hands the number on, the failure branch produces
nothing. -/
def generate_credit_card_cc (iin digits : List Nat) : Option (List Nat) :=
  let card_number := Luhn.append (iin ++ digits)
  if Luhn.verify card_number then some card_number else none

/-! ## Response classification (`parse_response`) -/

/-- The classification outcomes of `parse_response`, one per distinct
message string it can return (the unknown case carries the status
byte whose hex the message embeds). -/
inductive ResponseOutcome
  | success
  | readWriteError
  | formatError
  | invalidCommand
  | invalidSwipeInWriteMode
  | unknownStatus (b : Nat)
  | noResponse
deriving DecidableEq

/-- The `status_codes` dict of `parse_response`: final status byte to
outcome, defaulting to the unknown-status message. -/
def statusOf (b : Nat) : ResponseOutcome :=
  if b = 0x30 then .success
  else if b = 0x31 then .readWriteError
  else if b = 0x32 then .formatError
  else if b = 0x34 then .invalidCommand
  else if b = 0x39 then .invalidSwipeInWriteMode
  else .unknownStatus b

/-- `parse_response` from the sources: a frame starting with ESC and
ending in `ESC '0'` is a success; otherwise a frame starting with ESC
and longer than two bytes is classified by its last byte through
`status_codes`; everything else is "No valid response received.". -/
def parse_response (r : List Nat) : ResponseOutcome :=
  if r.take 1 = [0x1B] ∧ r.reverse.take 2 = [0x30, 0x1B] then .success
  else if r.take 1 = [0x1B] ∧ 2 < r.length then statusOf (r.getLastD 0)
  else .noResponse

/-! ## Command encoding

The sources build commands as Python strings with embedded control
characters and send `command.encode()`; `pyEncode` is that UTF-8
encoding step on code points. -/

/-- Code points of a string literal (`str` as a sequence of code
points). -/
def codes (s : String) : List Nat := s.data.map (fun c => c.toNat)

/-- UTF-8 encoding of one code point. -/
def utf8EncodeCp (c : Nat) : List Nat :=
  if c < 0x80 then [c]
  else if c < 0x800 then [0xC0 + c / 0x40, 0x80 + c % 0x40]
  else if c < 0x10000 then
    [0xE0 + c / 0x1000, 0x80 + (c / 0x40) % 0x40, 0x80 + c % 0x40]
  else
    [0xF0 + c / 0x40000, 0x80 + (c / 0x1000) % 0x40,
     0x80 + (c / 0x40) % 0x40, 0x80 + c % 0x40]

/-- `str.encode()`: UTF-8 bytes of a code-point sequence. -/
def pyEncode (s : List Nat) : List Nat := (s.map utf8EncodeCp).flatten

/-- The read-tracks command `'\x1Br'` sent by `read_card`. -/
def read_command : List Nat := pyEncode (codes "\x1Br")

/-- The manual write command of `write_card`:
`f'\x1Bw\x1Bs\x1B\x01{track1}\x1B\x02{track2}\x1B\x03{track3}?\x1C'`. -/
def write_card_command (t1 t2 t3 : List Nat) : List Nat :=
  pyEncode (codes "\x1Bw\x1Bs\x1B\x01" ++ t1 ++ codes "\x1B\x02" ++ t2 ++
    codes "\x1B\x03" ++ t3 ++ codes "?\x1C")

/-- The write command of `write_card_with_generated_number` in
`msre206_debug.py`: `f'\x1Bw\x1Bs\x1B\x01{track1}\x1B\x02{track2}\x1C'`. -/
def write_generated_command (t1 t2 : List Nat) : List Nat :=
  pyEncode (codes "\x1Bw\x1Bs\x1B\x01" ++ t1 ++ codes "\x1B\x02" ++ t2 ++
    codes "\x1C")

/-! ## Response accumulation (`read_until_complete`) -/

/-- The timeout constant `DEFAULT_TIMEOUT = 5` shared by the sources. -/
def DEFAULT_TIMEOUT : Nat := 5

/-- `read_until_complete`: starting at poll index `i` with a budget of
`fuel` remaining polls inside the idle window, poll `read`, stop with
what was gathered on the first empty chunk, otherwise keep
concatenating until the window elapses. -/
def read_until_complete (read : Nat → List Nat) : Nat → Nat → List Nat
  | 0, _ => []
  | fuel + 1, i =>
    if read i = [] then [] else read i ++ read_until_complete read fuel (i + 1)

/-! ## UTF-8 decoding (`bytes.decode()`) -/

/-- Strict UTF-8 decoding as performed by CPython `bytes.decode()`:
code points from well-formed sequences, `none` (a raised
`UnicodeDecodeError`) on any ill-formed byte: stray continuation or
lead bytes, truncated sequences, overlong encodings, surrogates and
values above `U+10FFFF`. -/
def utf8Decode? : List Nat → Option (List Nat)
  | [] => some []
  | b :: rest =>
    if b ≤ 0x7F then (utf8Decode? rest).map (fun cs => b :: cs)
    else if 0xC2 ≤ b ∧ b ≤ 0xDF then
      match rest with
      | b1 :: r =>
        if 0x80 ≤ b1 ∧ b1 ≤ 0xBF then
          (utf8Decode? r).map (fun cs => ((b - 0xC0) * 0x40 + (b1 - 0x80)) :: cs)
        else none
      | [] => none
    else if 0xE0 ≤ b ∧ b ≤ 0xEF then
      match rest with
      | b1 :: b2 :: r =>
        if ((b = 0xE0 ∧ 0xA0 ≤ b1 ∧ b1 ≤ 0xBF) ∨
            (b = 0xED ∧ 0x80 ≤ b1 ∧ b1 ≤ 0x9F) ∨
            (b ≠ 0xE0 ∧ b ≠ 0xED ∧ 0x80 ≤ b1 ∧ b1 ≤ 0xBF)) ∧
           (0x80 ≤ b2 ∧ b2 ≤ 0xBF) then
          (utf8Decode? r).map
            (fun cs => ((b - 0xE0) * 0x1000 + (b1 - 0x80) * 0x40 + (b2 - 0x80)) :: cs)
        else none
      | _ => none
    else if 0xF0 ≤ b ∧ b ≤ 0xF4 then
      match rest with
      | b1 :: b2 :: b3 :: r =>
        if ((b = 0xF0 ∧ 0x90 ≤ b1 ∧ b1 ≤ 0xBF) ∨
            (b = 0xF4 ∧ 0x80 ≤ b1 ∧ b1 ≤ 0x8F) ∨
            (b ≠ 0xF0 ∧ b ≠ 0xF4 ∧ 0x80 ≤ b1 ∧ b1 ≤ 0xBF)) ∧
           (0x80 ≤ b2 ∧ b2 ≤ 0xBF) ∧ (0x80 ≤ b3 ∧ b3 ≤ 0xBF) then
          (utf8Decode? r).map
            (fun cs => ((b - 0xF0) * 0x40000 + (b1 - 0x80) * 0x1000 +
              (b2 - 0x80) * 0x40 + (b3 - 0x80)) :: cs)
        else none
      | _ => none
    else none

/-! ## Track decoding (`read_card`) -/

/-- One hex digit, lowercase, as a code point (`bytes.hex()` output
alphabet). -/
def hexDigit (n : Nat) : Nat := if n < 10 then 0x30 + n else 0x57 + n

/-- `bytes.hex()`: two lowercase hex digits per byte. -/
def bytesToHex (bs : List Nat) : List Nat :=
  (bs.map (fun b => [hexDigit (b / 16), hexDigit (b % 16)])).flatten

/-- Membership in the character class of the cleaning regex
`'\x1B[^\x1B[^\x20-\x7E]*'`: inside a class, `[` and `^` (both in
`0x20`–`0x7E`) are literal, so the class matches exactly the characters
that are neither ESC nor printable ASCII. -/
def ctlClass (c : Nat) : Bool := decide ((c < 0x20 ∧ c ≠ 0x1B) ∨ 0x7E < c)

/-- Leftmost, non-overlapping `re.sub` of the cleaning regex with the
empty string: each ESC is removed together with the maximal following
run of `ctlClass` characters.  `inRun` records whether we are inside
such a run. -/
def cleanCtlGo : Bool → List Nat → List Nat
  | _, [] => []
  | inRun, c :: rest =>
    if c = 0x1B then cleanCtlGo true rest
    else if inRun ∧ ctlClass c then cleanCtlGo true rest
    else c :: cleanCtlGo false rest

/-- `cleaned_response = re.sub(r'\x1B[^\x1B[^\x20-\x7E]*', '', text)`. -/
def cleanCtl (text : List Nat) : List Nat := cleanCtlGo false text

/-- `str.split('?')` keeping empty fields, as in Python. -/
def splitOnQ : List Nat → List (List Nat)
  | [] => [[]]
  | c :: rest =>
    if c = 0x3F then [] :: splitOnQ rest
    else
      match splitOnQ rest with
      | f :: fs => (c :: f) :: fs
      | [] => [[c]]

/-- Python whitespace stripped by `str.strip()`. -/
def isSpaceCp (c : Nat) : Bool :=
  decide (c = 0x20 ∨ c = 0x09 ∨ c = 0x0A ∨ c = 0x0D ∨ c = 0x0B ∨ c = 0x0C)

/-- `str.strip()`: drop whitespace from both ends. -/
def strip (s : List Nat) : List Nat :=
  ((s.dropWhile isSpaceCp).reverse.dropWhile isSpaceCp).reverse

/-- The three Tk `StringVar`s holding the track fields. -/
structure TrackState where
  track1 : List Nat
  track2 : List Nat
  track3 : List Nat
deriving DecidableEq

/-- The track-assignment block of `read_card`: clean the decoded text,
split it on `'?'`, and guardedly set each track variable —
`if len(tracks) >= k: trackk_var.set(tracks[k-1].strip())`. -/
def assignTracks (s : TrackState) (text : List Nat) : TrackState :=
  let tracks := splitOnQ (cleanCtl text)
  let s1 := if 1 ≤ tracks.length then { s with track1 := strip (tracks.getD 0 []) } else s
  let s2 := if 2 ≤ tracks.length then { s1 with track2 := strip (tracks.getD 1 []) } else s1
  let s3 := if 3 ≤ tracks.length then { s2 with track3 := strip (tracks.getD 2 []) } else s2
  s3

/-- What `read_card` reports after obtaining a response. -/
inductive ReadOutcome
  | tracksSet
  | decodeFailure (hex : List Nat)
  | noData
deriving DecidableEq

/-- The response-processing tail of `read_card`: empty response →
"No data received"; undecodable response → the `UnicodeDecodeError`
handler logs the raw bytes as hex and leaves the track variables
untouched; otherwise clean, split and assign the tracks. -/
def read_card (s : TrackState) (response : List Nat) : TrackState × ReadOutcome :=
  if response = [] then (s, .noData)
  else
    match utf8Decode? response with
    | some text => (assignTracks s text, .tracksSet)
    | none => (s, .decodeFailure (bytesToHex response))

/-! ## Luhn lemmas -/

/-- Prepending a digit to the reversed digit list contributes exactly
that digit to the Luhn addend sum: the remaining addends agree with
those obtained after a `0` placeholder. -/
lemma addendsRev_cons_sum (x : Nat) (r : List Nat) :
    (Luhn.addendsRev (x :: r)).sum = x + (Luhn.addendsRev (0 :: r)).sum := by
  cases r with
  | nil => simp [Luhn.addendsRev]
  | cons e rest => simp [Luhn.addendsRev]

/-- `luhn.append` always produces a Luhn-valid digit string. -/
lemma verify_append (ds : List Nat) : Luhn.verify (Luhn.append ds) = true := by
  have hrev : ∀ y : Nat, (ds ++ [y]).reverse = y :: ds.reverse := by
    intro y; simp
  have hsum : ∀ y : Nat,
      Luhn.checksum (ds ++ [y]) =
        (y + (Luhn.addendsRev (0 :: ds.reverse)).sum) % 10 := by
    intro y
    rw [Luhn.checksum, hrev y, addendsRev_cons_sum]
  rw [Luhn.verify, Luhn.append, Luhn.generate, hsum]
  have h0 := hsum 0
  rw [h0]
  set T := (Luhn.addendsRev (0 :: ds.reverse)).sum with hT
  simp only [Nat.zero_add, beq_iff_eq]
  omega

/-- The digit-prefix of each debug-generator brand is always strictly
shorter than the brand length. -/
lemma debugIIN_length (b : Brand) : ∀ p ∈ debugIIN b, p.length + 1 ≤ debugLength b := by
  cases b <;> decide

/-- The digit-prefix of each cc-generator brand is always strictly
shorter than the brand length. -/
lemma ccIIN_length (b : Brand) : ∀ p ∈ ccIIN b, p.length + 1 ≤ ccLength b := by
  cases b <;> decide

/-- Any number the debug retry loop returns passed the `verify` gate
and came out of one attempt's `debugAppendCheckDigit`. -/
lemma generate_credit_card_sound (iin : List Nat) (rand : Nat → List Nat) :
    ∀ fuel n, generate_credit_card iin rand fuel = some n →
      Luhn.verify n = true ∧ ∃ i, n = debugAppendCheckDigit (iin ++ rand i) := by
  intro fuel
  induction fuel with
  | zero => intro n h; simp [generate_credit_card] at h
  | succ f ih =>
    intro n h
    rw [generate_credit_card] at h
    by_cases hv : Luhn.verify (debugAppendCheckDigit (iin ++ rand f)) = true
    · rw [if_pos hv] at h
      obtain rfl : debugAppendCheckDigit (iin ++ rand f) = n := Option.some.inj h
      exact ⟨hv, f, rfl⟩
    · rw [if_neg hv] at h
      exact ih n h

/-! ## Claim C1 -/

/-- Claim C1: for every supported brand, any card number the generator
returns passes Luhn verification and has the brand's expected total
length (15 for American Express, 16 for Visa, MasterCard and Discover);
the generator never returns a number failing Luhn validation.  First
conjunct: the retry-loop generator of `msre206_debug.py` (any digit
draws, any fuel).  Second conjunct: the `luhn.append`-based generator
of `msre206_cc.py` always succeeds with a valid number. -/
theorem generator_luhn_valid :
    (∀ (b : Brand) (p : List Nat), p ∈ debugIIN b →
      ∀ rand : Nat → List Nat,
        (∀ i, (rand i).length = debugLength b - p.length - 1) →
        ∀ fuel n, generate_credit_card p rand fuel = some n →
          Luhn.verify n = true ∧ n.length = debugLength b) ∧
    (∀ (b : Brand) (p : List Nat), p ∈ ccIIN b →
      ∀ digits : List Nat, digits.length = ccLength b - p.length - 1 →
        ∃ n, generate_credit_card_cc p digits = some n ∧
          Luhn.verify n = true ∧ n.length = ccLength b) := by
  constructor
  · intro b p hp rand hr fuel n hgen
    obtain ⟨hv, i, rfl⟩ := generate_credit_card_sound p rand fuel n hgen
    refine ⟨hv, ?_⟩
    have hlen := debugIIN_length b p hp
    simp only [debugAppendCheckDigit, List.length_append, List.length_cons,
      List.length_nil, hr i]
    omega
  · intro b p hp digits hd
    refine ⟨Luhn.append (p ++ digits), ?_, verify_append _, ?_⟩
    · simp [generate_credit_card_cc, verify_append]
    · have hlen := ccIIN_length b p hp
      simp only [Luhn.append, List.length_append, List.length_cons,
        List.length_nil, hd]
      omega

/-- Witness for C1: a Visa number produced by the debug generator in one
attempt, and the cc generator succeeding on a concrete digit draw. -/
theorem generator_luhn_valid_witness :
    (Luhn.verify [4, 0, 0, 0, 0, 0, 0, 0, 0, 0, 0, 0, 0, 4, 0, 8] = true ∧
      ([4, 0, 0, 0, 0, 0, 0, 0, 0, 0, 0, 0, 0, 4, 0, 8] : List Nat).length = 16) ∧
    (∃ n, generate_credit_card_cc [4] [0, 0, 0, 0, 0, 0, 0, 0, 0, 0, 0, 0, 0, 0] = some n ∧
      Luhn.verify n = true ∧ n.length = 16) :=
  ⟨generator_luhn_valid.1 .visa [4] (by decide)
      (fun _ => [0, 0, 0, 0, 0, 0, 0, 0, 0, 0, 0, 0, 4, 0])
      (fun _ => (by decide :
        ([0, 0, 0, 0, 0, 0, 0, 0, 0, 0, 0, 0, 4, 0] : List Nat).length =
          debugLength Brand.visa - ([4] : List Nat).length - 1))
      1 [4, 0, 0, 0, 0, 0, 0, 0, 0, 0, 0, 0, 0, 4, 0, 8] (by decide),
    generator_luhn_valid.2 .visa [4] (by decide)
      [0, 0, 0, 0, 0, 0, 0, 0, 0, 0, 0, 0, 0, 0] (by decide)⟩

/-! ## Claim C4 -/

/-- Claim C4 counterexample: on the 14-digit string `"10000000000000"`,
appending the check digit computed by the generation algorithm of
`msre206_debug.py` (doubling the digits at odd offset from the right of
the payload, check digit excluded) yields `"100000000000008"`, which
Luhn verification rejects — the claimed round trip fails. -/
theorem debug_round_trip_counterexample :
    ([1, 0, 0, 0, 0, 0, 0, 0, 0, 0, 0, 0, 0, 0] : List Nat).length = 14 ∧
    debugAppendCheckDigit [1, 0, 0, 0, 0, 0, 0, 0, 0, 0, 0, 0, 0, 0] =
      [1, 0, 0, 0, 0, 0, 0, 0, 0, 0, 0, 0, 0, 0, 8] ∧
    Luhn.verify (debugAppendCheckDigit [1, 0, 0, 0, 0, 0, 0, 0, 0, 0, 0, 0, 0, 0]) =
      false := by decide

/-- Claim C4 (amended): for any 14–18 digit prefix, appending the check
digit computed with the placeholder shift of `luhn.append` — the digits
that end up at odd offset from the right of the final string are the
ones doubled — yields a string that Luhn verification accepts. -/
theorem luhn_round_trip (ds : List Nat)
    (h14 : 14 ≤ ds.length) (h18 : ds.length ≤ 18) :
    Luhn.verify (Luhn.append ds) = true := verify_append ds

/-- Witness for the amended C4 on a concrete 14-digit payload. -/
theorem luhn_round_trip_witness :
    14 ≤ ([1, 0, 0, 0, 0, 0, 0, 0, 0, 0, 0, 0, 0, 0] : List Nat).length ∧
    ([1, 0, 0, 0, 0, 0, 0, 0, 0, 0, 0, 0, 0, 0] : List Nat).length ≤ 18 ∧
    Luhn.verify (Luhn.append [1, 0, 0, 0, 0, 0, 0, 0, 0, 0, 0, 0, 0, 0]) = true :=
  ⟨by decide, by decide,
    luhn_round_trip [1, 0, 0, 0, 0, 0, 0, 0, 0, 0, 0, 0, 0, 0] (by decide) (by decide)⟩

/-! ## Claim C3 -/

/-- Claim C3: command encoding is deterministic — encoding the
read-tracks command yields exactly the two bytes `1B 72`, and encoding
the write-tracks command with track strings `"A"`, `"B"`, `"C"` yields
exactly `1B 77 1B 73 1B 01 41 1B 02 42 1B 03 43 3F 1C`. -/
theorem encode_deterministic :
    read_command = [0x1B, 0x72] ∧
    write_card_command (codes "A") (codes "B") (codes "C") =
      [0x1B, 0x77, 0x1B, 0x73, 0x1B, 0x01, 0x41, 0x1B, 0x02, 0x42,
       0x1B, 0x03, 0x43, 0x3F, 0x1C] := by decide

/-! ## Claim C10 -/

/-- UTF-8 encoding distributes over concatenation. -/
lemma pyEncode_append (a b : List Nat) :
    pyEncode (a ++ b) = pyEncode a ++ pyEncode b := by
  simp [pyEncode]

/-- Claim C10: for every pair of track strings, the generate-and-write
path of `msre206_debug.py` encodes its frame as
`ESC 'w' ESC 's' ESC 01 t1 ESC 02 t2 FS` — with no track-3 token and no
`'?'` before FS — so it always differs from the manual write-tracks
frame built for the same track data. -/
theorem generated_write_frame (t1 t2 t3 : List Nat) :
    write_generated_command t1 t2 =
      [0x1B, 0x77, 0x1B, 0x73, 0x1B, 0x01] ++ pyEncode t1 ++
        [0x1B, 0x02] ++ pyEncode t2 ++ [0x1C] ∧
    write_generated_command t1 t2 ≠ write_card_command t1 t2 t3 := by
  have e1 : pyEncode (codes "\x1Bw\x1Bs\x1B\x01") =
      [0x1B, 0x77, 0x1B, 0x73, 0x1B, 0x01] := by decide
  have e2 : pyEncode (codes "\x1B\x02") = [0x1B, 0x02] := by decide
  have e3 : pyEncode (codes "\x1C") = [0x1C] := by decide
  have e4 : pyEncode (codes "\x1B\x03") = [0x1B, 0x03] := by decide
  have e5 : pyEncode (codes "?\x1C") = [0x3F, 0x1C] := by decide
  have hgen : write_generated_command t1 t2 =
      [0x1B, 0x77, 0x1B, 0x73, 0x1B, 0x01] ++ pyEncode t1 ++
        [0x1B, 0x02] ++ pyEncode t2 ++ [0x1C] := by
    unfold write_generated_command
    rw [pyEncode_append, pyEncode_append, pyEncode_append, pyEncode_append,
      e1, e2, e3]
  have hman : write_card_command t1 t2 t3 =
      [0x1B, 0x77, 0x1B, 0x73, 0x1B, 0x01] ++ pyEncode t1 ++
        [0x1B, 0x02] ++ pyEncode t2 ++ [0x1B, 0x03] ++ pyEncode t3 ++
        [0x3F, 0x1C] := by
    unfold write_card_command
    rw [pyEncode_append, pyEncode_append, pyEncode_append, pyEncode_append,
      pyEncode_append, pyEncode_append, e1, e2, e4, e5]
  refine ⟨hgen, fun heq => ?_⟩
  rw [hgen, hman] at heq
  have hl := congrArg List.length heq
  simp [List.length_append] at hl

/-! ## Claim C7 -/

/-- The drain loop equals the flattened non-empty chunk run, for any
start index. -/
lemma read_until_complete_go (read : Nat → List Nat) :
    ∀ fuel i, read_until_complete read fuel i =
      (((List.range' i fuel).map read).takeWhile (fun c => !c.isEmpty)).flatten := by
  intro fuel
  induction fuel with
  | zero => intro i; simp [read_until_complete]
  | succ f ih =>
    intro i
    rw [read_until_complete]
    by_cases h : read i = []
    · simp [List.range', h]
    · simp [List.range', List.takeWhile_cons, h, ih (i + 1)]

/-- Claim C7: for every sequence of chunks the transport delivers,
response accumulation returns the concatenation of the non-empty chunks
read before the first empty poll — stopping early on the first empty
chunk, and otherwise stopping when the idle window (default
`DEFAULT_TIMEOUT = 5` time units, one poll per unit) elapses. -/
theorem read_until_complete_drains (read : Nat → List Nat) (timeout : Nat) :
    read_until_complete read timeout 0 =
      (((List.range timeout).map read).takeWhile (fun c => !c.isEmpty)).flatten ∧
    DEFAULT_TIMEOUT = 5 :=
  ⟨by rw [List.range_eq_range']; exact read_until_complete_go read timeout 0, rfl⟩

/-! ## Claim C5 -/

/-- Claim C5: track decoding splits the cleaned text on `'?'`, field 0
becoming track1, field 1 track2 and field 2 track3; on
`"TRACK1DATA?TRACK2DATA?TRACK3DATA?"` this yields the three track
payloads, and text containing only one field leaves track2 and track3
empty (they are not assigned, so from the empty initial state they stay
empty). -/
theorem track_split :
    (∀ s : TrackState,
      assignTracks s (codes "TRACK1DATA?TRACK2DATA?TRACK3DATA?") =
        { track1 := codes "TRACK1DATA", track2 := codes "TRACK2DATA",
          track3 := codes "TRACK3DATA" }) ∧
    (∀ text : List Nat, (splitOnQ (cleanCtl text)).length = 1 →
      (assignTracks ⟨[], [], []⟩ text).track2 = [] ∧
      (assignTracks ⟨[], [], []⟩ text).track3 = []) := by
  constructor
  · intro s
    rfl
  · intro text h
    constructor <;> simp [assignTracks, h]

/-- Witness for C5: one-field text on the empty initial state. -/
theorem track_split_witness :
    (assignTracks ⟨[], [], []⟩ (codes "SINGLE")).track2 = [] ∧
    (assignTracks ⟨[], [], []⟩ (codes "SINGLE")).track3 = [] :=
  track_split.2 (codes "SINGLE") (by decide)

/-! ## Claim C8 -/

/-- Claim C8: for every non-empty response that is not decodable as
text, `read_card` handles the decode failure locally — it reports the
raw bytes as their hex rendering and leaves the track state untouched —
and completes (the embedding is a total function, no exception escapes). -/
theorem decode_failure_handled (s : TrackState) (r : List Nat)
    (hne : r ≠ []) (hdec : utf8Decode? r = none) :
    read_card s r = (s, .decodeFailure (bytesToHex r)) := by
  unfold read_card
  rw [if_neg hne, hdec]

/-- Witness for C8: the lone byte `FF` is not valid UTF-8; its hex
rendering is `"ff"`. -/
theorem decode_failure_handled_witness :
    read_card ⟨[], [], []⟩ [0xFF] = (⟨[], [], []⟩, .decodeFailure [0x66, 0x66]) :=
  decode_failure_handled ⟨[], [], []⟩ [0xFF] (by decide) (by decide)

/-! ## Claim C9 -/

/-- Claim C9: when the cleaned text splits into fewer than three fields,
`read_card` assigns only the fields present and leaves the track
variables for the absent fields unchanged at their previous values — it
does not reset them to empty. -/
theorem absent_tracks_unchanged (s : TrackState) (text : List Nat) :
    ((splitOnQ (cleanCtl text)).length < 3 →
      (assignTracks s text).track3 = s.track3) ∧
    ((splitOnQ (cleanCtl text)).length < 2 →
      (assignTracks s text).track2 = s.track2) ∧
    ((splitOnQ (cleanCtl text)).length = 2 →
      (assignTracks s text).track2 =
        strip ((splitOnQ (cleanCtl text)).getD 1 [])) := by
  refine ⟨?_, ?_, ?_⟩ <;> intro h <;> simp only [assignTracks] <;>
    split_ifs <;> first | rfl | omega

/-- Witness for C9: one-field text over a state with non-empty previous
track values, which are preserved verbatim. -/
theorem absent_tracks_unchanged_witness :
    (assignTracks ⟨codes "P1", codes "P2", codes "P3"⟩ (codes "ONLY")).track3 =
      codes "P3" ∧
    (assignTracks ⟨codes "P1", codes "P2", codes "P3"⟩ (codes "ONLY")).track2 =
      codes "P2" :=
  ⟨(absent_tracks_unchanged ⟨codes "P1", codes "P2", codes "P3"⟩ (codes "ONLY")).1
      (by decide),
    (absent_tracks_unchanged ⟨codes "P1", codes "P2", codes "P3"⟩ (codes "ONLY")).2.1
      (by decide)⟩

/-- Witness for C7: a transport delivering two chunks and then an empty
poll inside the default window. -/
theorem read_until_complete_drains_witness :
    read_until_complete (fun i => if i = 2 then [] else [i + 1, 0])
      DEFAULT_TIMEOUT 0 = [1, 0, 2, 0] := by
  have h := (read_until_complete_drains
    (fun i => if i = 2 then [] else [i + 1, 0]) DEFAULT_TIMEOUT).1
  rw [h]
  decide

/-- Witness for C10: concrete tracks "A", "B" (and "C" on the manual
path), with the generated-path frame fully evaluated. -/
theorem generated_write_frame_witness :
    write_generated_command (codes "A") (codes "B") =
      [0x1B, 0x77, 0x1B, 0x73, 0x1B, 0x01, 0x41, 0x1B, 0x02, 0x42, 0x1C] ∧
    write_generated_command (codes "A") (codes "B") ≠
      write_card_command (codes "A") (codes "B") (codes "C") :=
  ⟨by decide, (generated_write_frame (codes "A") (codes "B") (codes "C")).2⟩

/-! ## Claim C2 -/

/-- Claim C2: the status classification applies three ordered rules:
a frame starting with ESC and ending in `ESC '0'` is Success; otherwise
a frame starting with ESC of length greater than 2 is classified by its
final byte through the fixed table (`'0'`→Success, `'1'`→ReadWriteError,
`'2'`→FormatError, `'4'`→InvalidCommand, `'9'`→InvalidSwipeInWriteMode,
anything else→UnknownStatus(byte)); every other frame is NoResponse.
Rule 1 applies whenever its condition holds, i.e. before rule 2. -/
theorem parse_response_rules (r : List Nat) :
    (r.take 1 = [0x1B] → r.reverse.take 2 = [0x30, 0x1B] →
      parse_response r = .success) ∧
    (r.take 1 = [0x1B] → r.reverse.take 2 ≠ [0x30, 0x1B] → 2 < r.length →
      parse_response r = statusOf (r.getLastD 0)) ∧
    (r.take 1 ≠ [0x1B] → parse_response r = .noResponse) ∧
    (r.take 1 = [0x1B] → r.reverse.take 2 ≠ [0x30, 0x1B] → r.length ≤ 2 →
      parse_response r = .noResponse) ∧
    statusOf 0x30 = .success ∧ statusOf 0x31 = .readWriteError ∧
    statusOf 0x32 = .formatError ∧ statusOf 0x34 = .invalidCommand ∧
    statusOf 0x39 = .invalidSwipeInWriteMode ∧
    (∀ b, b ≠ 0x30 → b ≠ 0x31 → b ≠ 0x32 → b ≠ 0x34 → b ≠ 0x39 →
      statusOf b = .unknownStatus b) := by
  refine ⟨?_, ?_, ?_, ?_, by decide, by decide, by decide, by decide, by decide, ?_⟩
  · intro h1 h2
    unfold parse_response
    rw [if_pos ⟨h1, h2⟩]
  · intro h1 h2 h3
    unfold parse_response
    rw [if_neg (fun hc => h2 hc.2), if_pos ⟨h1, h3⟩]
  · intro h1
    unfold parse_response
    rw [if_neg (fun hc => h1 hc.1), if_neg (fun hc => h1 hc.1)]
  · intro h1 h2 h3
    unfold parse_response
    rw [if_neg (fun hc => h2 hc.2), if_neg (fun hc => absurd hc.2 (by omega))]
  · intro b hb30 hb31 hb32 hb34 hb39
    unfold statusOf
    rw [if_neg hb30, if_neg hb31, if_neg hb32, if_neg hb34, if_neg hb39]

/-- Witness for C2: one frame per rule, each hypothesis discharged on a
concrete byte sequence. -/
theorem parse_response_rules_witness :
    parse_response [0x1B, 0x05, 0x1B, 0x30] = .success ∧
    parse_response [0x1B, 0x00, 0x31] = .readWriteError ∧
    parse_response [0x41] = .noResponse ∧
    parse_response [0x1B, 0x39] = .noResponse := by
  refine ⟨(parse_response_rules _).1 (by decide) (by decide), ?_,
    (parse_response_rules _).2.2.1 (by decide),
    (parse_response_rules _).2.2.2.1 (by decide) (by decide) (by decide)⟩
  have h := (parse_response_rules [0x1B, 0x00, 0x31]).2.1
    (by decide) (by decide) (by decide)
  rw [h]
  decide

/-! ## Claim C6 -/

/-- Claim C6: response classification is total — every byte sequence,
the empty one included, is mapped to exactly one outcome variant, never
to an unhandled case — and on the sample frames empty, `1B 30`,
`1B 00…00 31`, `1B 39` and `FF FF` it yields the outcome the rule table
of §4.1 dictates (`1B 39` has length 2, so rule 2 does not apply and
rule 3 yields NoResponse). -/
theorem parse_response_total :
    (∀ r : List Nat,
      parse_response r = .noResponse ∨ parse_response r = .success ∨
      parse_response r = .readWriteError ∨ parse_response r = .formatError ∨
      parse_response r = .invalidCommand ∨
      parse_response r = .invalidSwipeInWriteMode ∨
      ∃ b, parse_response r = .unknownStatus b) ∧
    parse_response [] = .noResponse ∧
    parse_response [0x1B, 0x30] = .success ∧
    (∀ k, 1 ≤ k →
      parse_response (0x1B :: (List.replicate k 0x00 ++ [0x31])) =
        .readWriteError) ∧
    parse_response [0x1B, 0x39] = .noResponse ∧
    parse_response [0xFF, 0xFF] = .noResponse := by
  refine ⟨?_, by decide, by decide, ?_, by decide, by decide⟩
  · intro r
    unfold parse_response
    split_ifs with h1 h2
    · exact Or.inr (Or.inl rfl)
    · unfold statusOf
      split_ifs
      · exact Or.inr (Or.inl rfl)
      · exact Or.inr (Or.inr (Or.inl rfl))
      · exact Or.inr (Or.inr (Or.inr (Or.inl rfl)))
      · exact Or.inr (Or.inr (Or.inr (Or.inr (Or.inl rfl))))
      · exact Or.inr (Or.inr (Or.inr (Or.inr (Or.inr (Or.inl rfl)))))
      · exact Or.inr (Or.inr (Or.inr (Or.inr (Or.inr (Or.inr ⟨_, rfl⟩)))))
    · exact Or.inl rfl
  · intro k hk
    have hstart : (0x1B :: (List.replicate k 0x00 ++ [0x31])).take 1 = [0x1B] := by
      simp
    have hrev : (0x1B :: (List.replicate k 0x00 ++ [0x31])).reverse.take 2 ≠
        [0x30, 0x1B] := by
      simp [List.reverse_cons, List.reverse_append, List.take_succ_cons]
    have hlen : 2 < (0x1B :: (List.replicate k 0x00 ++ [0x31])).length := by
      simp
      omega
    have hlast : (0x1B :: (List.replicate k 0x00 ++ [0x31])).getLastD 0 = 0x31 := by
      rw [← List.cons_append, List.getLastD_eq_getLast?, List.getLast?_concat]
      rfl
    unfold parse_response
    rw [if_neg (fun hc => hrev hc.2), if_pos ⟨hstart, hlen⟩, hlast]
    decide

/-- Witness for C6: the `1B 00…00 31` family at a concrete length. -/
theorem parse_response_total_witness :
    parse_response (0x1B :: (List.replicate 2 0x00 ++ [0x31])) = .readWriteError :=
  parse_response_total.2.2.2.1 2 (by decide)

end MSRE206
